import Mathlib

/- Shallow embedding of the ELITE SOC ANALYZER core pipeline.

   Conventions used throughout this development:
   * Python dict-shaped events and alerts become Lean structures with
     `Option` fields for keys that may be absent.
   * Wall-clock instants and durations are rationals measured in seconds
     (the source compares `datetime` / `timedelta` values; `float`
     timestamp arithmetic at the granularity used by the detection logic
     is exact, so `ℚ` is a faithful carrier).
   * ISO timestamp strings are represented by their parse outcome: a
     `TimeStr` is either a parseable stamp carrying its instant or a
     malformed string; `datetime.fromisoformat` becomes the projection
     to `Option ℚ`, raising (returning `none`) on malformed input.
   * Code that can raise an uncaught exception is embedded in
     `Except Unit`.
   * The MD5-based alert id (hash of seed + wall clock) is abstracted by
     a plain encoding of seed and clock; no claim depends on id values. -/

namespace Soc

/-- An ISO-format timestamp string, represented by its parse outcome. -/
inductive TimeStr where
  | valid (t : ℚ)
  | malformed
deriving DecidableEq, Repr

/-- Models `datetime.fromisoformat`: parses a timestamp string, failing on a
malformed one. -/
def fromisoformat : TimeStr → Option ℚ
  | .valid t => some t
  | .malformed => none

/-- Python `int(...)` on a number: truncation toward zero. -/
def truncInt (q : ℚ) : ℤ :=
  if q < 0 then -(Int.floor (-q)) else Int.floor q

/-- Character-list version of Python's prefix test used by `strIn`. -/
def chStarts : List Char → List Char → Bool
  | [], _ => true
  | _ :: _, [] => false
  | p :: ps, h :: hs => p == h && chStarts ps hs

/-- Character-list substring occurrence test. -/
def chSub (pat : List Char) : List Char → Bool
  | [] => pat.isEmpty
  | h :: t => chStarts pat (h :: t) || chSub pat t

/-- Python's `pat in hay` substring test on strings. -/
def strIn (pat hay : String) : Bool :=
  chSub pat.data hay.data

/-- Keep the first occurrence of each element (Python dict-key /
first-seen iteration order for `Counter` and grouping maps). -/
def firstUniq (seen : List String) : List String → List String
  | [] => []
  | x :: xs => if x ∈ seen then firstUniq seen xs else x :: firstUniq (x :: seen) xs

/-- A parsed event (dict produced by `LogParser.parse_line` plus the
engine's bookkeeping); only the keys the analysis reads are modelled. -/
structure Event where
  eventType : Option String := none
  ip : Option String := none
  user : Option String := none
  ingestTime : Option TimeStr := none
deriving DecidableEq, Repr

/-- Holds (as a Bool) when the event's `INGEST_TIME`, if present, parses. -/
def timeOk (e : Event) : Bool :=
  match e.ingestTime with
  | none => true
  | some ts => (fromisoformat ts).isSome

/-- Holds (as a Bool) when the event carries a parseable `INGEST_TIME`. -/
def wellTimed (e : Event) : Bool :=
  match e.ingestTime with
  | none => false
  | some ts => (fromisoformat ts).isSome

/-- One entry of the static MITRE ATT&CK catalog (`mitre.py`). -/
structure MitreEntry where
  tactic : String
  technique : String
  techniqueName : String
  description : String
  detection : String
  mitigation : String
deriving DecidableEq, Repr

/-- The `MITRE_ATTACK` static table from `mitre.py`. -/
def MITRE_ATTACK : List (String × MitreEntry) :=
  [ ("SSH_BRUTE_FORCE",
     ⟨"CREDENTIAL ACCESS", "T1110.001", "PASSWORD GUESSING",
      "Brute-force password guessing against SSH",
      "Multiple failed authentication attempts",
      "MFA, account lockout, rate limiting"⟩),
    ("PORT_SCANNING_ACTIVITY",
     ⟨"DISCOVERY", "T1046", "NETWORK SERVICE DISCOVERY",
      "Scanning ports to discover services",
      "Rapid connection attempts across ports",
      "Firewall rules, IDS/IPS"⟩),
    ("AUTH_FROM_HIGH_RISK_GEO",
     ⟨"INITIAL ACCESS", "T1078", "VALID ACCOUNTS",
      "Login attempts from high-risk countries",
      "GeoIP correlation on auth logs",
      "Geo-fencing, conditional access"⟩),
    ("KNOWN_THREAT_ACTOR",
     ⟨"COMMAND AND CONTROL", "T1071", "APPLICATION LAYER PROTOCOL",
      "Communication with known malicious infrastructure",
      "Threat intel IP/domain matching",
      "Block at perimeter, threat intel updates"⟩),
    ("PASSWORD_SPRAYING",
     ⟨"CREDENTIAL ACCESS", "T1110.003", "PASSWORD SPRAYING",
      "Same password attempted across many users",
      "Single IP targeting multiple accounts",
      "Rate limiting, MFA"⟩),
    ("ACCOUNT_COMPROMISE",
     ⟨"LATERAL MOVEMENT", "T1078.003", "LOCAL ACCOUNTS",
      "Single account used from many IPs",
      "User behavior anomaly detection",
      "Password reset, session monitoring"⟩) ]

/-- Models `MITRE_ATTACK.get(key, ...)` with `none` playing the empty dict. -/
def mitreGet (key : String) : Option MitreEntry :=
  MITRE_ATTACK.lookup key

namespace cfg

/- Constants from `config.py` that the core reads. -/

def TOOL_NAME : String := "ELITE SOC ANALYZER"
def TOOL_VERSION : String := "6.0-COGNITIVE"
def FAILED_LOGIN_THRESHOLD : ℕ := 5
def FAILED_LOGIN_WINDOW_MINUTES : ℕ := 5
def ACCOUNT_IP_THRESHOLD : ℕ := 3
def WEIGHT_FAILED_AUTH : ℚ := 6
def WEIGHT_PORT_SCAN : ℚ := 4
def WEIGHT_GEO_RISK : ℚ := 20
def WEIGHT_THREAT_INTEL : ℚ := 30
def WEIGHT_TOR_EXIT : ℚ := 25
def MAX_RISK_SCORE : ℤ := 100
def GEO_RISK_COUNTRIES : List String :=
  ["RU", "CN", "KP", "IR", "SY", "AF", "IQ", "BY", "VE"]
def ENABLE_FP_REDUCTION : Bool := true
def FP_SUCCESSFUL_LOGIN_THRESHOLD : ℕ := 3
def ENABLE_ALERT_DEDUPLICATION : Bool := true
def ALERT_DEDUP_WINDOW_MINUTES : ℕ := 60
def ENABLE_LIVE_THREAT_INTEL : Bool := false
def ENABLE_ML_ANOMALY_DETECTION : Bool := true
def ANOMALY_THRESHOLD : ℚ := 0.75
def BREACH_PROBABILITY_WARNING : ℚ := 0.6

end cfg

/- ==================== risk_engine.py ==================== -/

/-- The function `calculate_risk_score` from `risk_engine.py`.  Counts are naturals
(the engine passes event counts), flags are booleans, the ML score is a
rational; the float accumulator becomes exact rational arithmetic and
`int(score)` becomes truncation toward zero, capped at 100 by `min`. -/
def calculate_risk_score (failed_attempts port_scans : ℕ)
    (geo_risk threat_intel tor_exit successful_after_failed : Bool)
    (unique_users time_window_events : ℕ) (ml_anomaly_score : ℚ) : ℤ :=
  let score : ℚ :=
    (failed_attempts : ℚ) * cfg.WEIGHT_FAILED_AUTH
    + (port_scans : ℚ) * cfg.WEIGHT_PORT_SCAN
    + (if geo_risk then cfg.WEIGHT_GEO_RISK else 0)
    + (if threat_intel then cfg.WEIGHT_THREAT_INTEL else 0)
    + (if tor_exit then cfg.WEIGHT_TOR_EXIT else 0)
    + (if successful_after_failed then 15 else 0)
    + (if 3 ≤ unique_users then 10 + (unique_users : ℚ) * 2 else 0)
    + (if 20 < time_window_events then 20 else 0)
    + ml_anomaly_score * 30
  min (truncInt score) 100

/-- The function `calculate_confidence_level` from `risk_engine.py`: base 50, plus
data-quality and behavioral terms, plus 25 on a threat-intel match,
minus 10 per false-positive indicator, clamped to [10, 100]. -/
def calculate_confidence_level (data_quality : ℚ)
    (threat_intel_match : Bool) (behavioral_consistency : ℚ)
    (false_positive_indicators : ℕ) : ℤ :=
  let confidence : ℚ :=
    50 + data_quality * 20
    + (if threat_intel_match then 25 else 0)
    + behavioral_consistency * 20
    - (false_positive_indicators : ℚ) * 10
  max 10 (min (truncInt confidence) 100)

/- ==================== threat_intel.py ==================== -/

/-- Static malicious-IP denylist loaded by `_load_static_feeds`. -/
def malicious_ips : List String :=
  ["185.210.45.22", "94.102.61.24", "45.155.205.233",
   "91.240.118.123", "198.98.51.189", "104.244.74.55"]

/-- Static Tor exit-node set loaded by `_load_static_feeds`. -/
def tor_exit_nodes : List String :=
  ["185.220.100.254", "185.220.101.4", "185.220.101.8"]

/-- Models `ThreatIntelligence.check_ip_reputation`: static membership checks.
The live-lookup branch is dead code here because
`ENABLE_LIVE_THREAT_INTEL` is `false` in `config.py`. -/
def check_ip_reputation (ip : String) : List String :=
  (if malicious_ips.contains ip then ["KNOWN_MALICIOUS_IP"] else [])
  ++ (if tor_exit_nodes.contains ip then ["TOR_EXIT_NODE"] else [])

/-- Geo lookup result (`{COUNTRY, CITY}` dict). -/
structure GeoInfo where
  country : String
  city : String
deriving DecidableEq, Repr

/-- Models `ThreatIntelligence.get_geoip_info`: three-entry static table with
`UNKNOWN` default. -/
def get_geoip_info (ip : String) : GeoInfo :=
  if ip = "185.210.45.22" then ⟨"RU", "MOSCOW"⟩
  else if ip = "45.155.205.233" then ⟨"IR", "TEHRAN"⟩
  else if ip = "8.8.8.8" then ⟨"US", "MOUNTAIN VIEW"⟩
  else ⟨"UNKNOWN", "UNKNOWN"⟩

/- ==================== ml_engine.py ==================== -/

/-- The `baselines` payload built by `MLAnomalyDetector.build_baseline`:
mean events per distinct IP and user, and the event-type distribution
(type, proportion-of-total) in first-seen order. -/
structure BaselineData where
  ipFreqMean : ℚ
  userFreqMean : ℚ
  eventDistribution : List (String × ℚ)
deriving DecidableEq, Repr

/-- The detector's `baselines` dict: `none` is the initial empty dict
(baseline never built), `some` a built baseline. -/
abbrev Baselines := Option BaselineData

/-- Python-truthy string extraction: the values of key `k` that are
present and non-empty, in order. -/
def truthyVals (f : Event → Option String) (events : List Event) : List String :=
  (events.filterMap f).filter (fun s => s ≠ "")

/-- Models `MLAnomalyDetector.build_baseline` (returns the empty dict when ML
is disabled; division guards mirror the `max(len, 1)` idioms). -/
def build_baseline (events : List Event) : Baselines :=
  if ¬ cfg.ENABLE_ML_ANOMALY_DETECTION then (none : Option BaselineData)
  else
    let ipVals := truthyVals Event.ip events
    let userVals := truthyVals Event.user events
    let types := truthyVals Event.eventType events
    some
      { ipFreqMean := (ipVals.length : ℚ) / max ((firstUniq [] ipVals).length : ℚ) 1
        userFreqMean := (userVals.length : ℚ) / max ((firstUniq [] userVals).length : ℚ) 1
        eventDistribution :=
          if 0 < events.length then
            (firstUniq [] types).map
              (fun t => (t, (types.count t : ℚ) / (events.length : ℚ)))
          else [] }

/-- Timestamps of the events that carry an `INGEST_TIME` key, parsed by
`fromisoformat`; an unparseable stamp raises (list comprehension inside
`detect_anomalies`). -/
def extractTimes : List Event → Except Unit (List ℚ)
  | [] => .ok []
  | e :: rest =>
    match e.ingestTime with
    | none => extractTimes rest
    | some ts =>
      match fromisoformat ts with
      | none => .error ()
      | some t => (extractTimes rest).map (fun l => t :: l)

/-- Pairwise differences of consecutive list elements. -/
def consecDiffs : List ℚ → List ℚ
  | a :: b :: rest => (b - a) :: consecDiffs (b :: rest)
  | _ => []

/-- Frequency-spike indicator of `detect_anomalies`: +0.3 when the
entity's event count exceeds three times the baseline IP-frequency
mean. -/
def freqContrib (bd : BaselineData) (events : List Event) : ℚ :=
  if (events.length : ℚ) > bd.ipFreqMean * 3 then 0.3 else 0

/-- The distinct event types of the entity subset whose observed ratio
exceeds four times their baseline ratio (default expected ratio 0.1). -/
def skewedTypes (bd : BaselineData) (events : List Event) : List String :=
  let types := truthyVals Event.eventType events
  (firstUniq [] types).filter (fun t =>
    let expected := ((bd.eventDistribution.lookup t).getD 0.1)
    let actual := (types.count t : ℚ) / max (events.length : ℚ) 1
    decide (actual > expected * 4))

/-- Distribution-skew indicator of `detect_anomalies`: +0.2 per skewed
event type. -/
def skewContrib (bd : BaselineData) (events : List Event) : ℚ :=
  0.2 * ((skewedTypes bd events).length : ℚ)

/-- Average of the consecutive gaps of `ts` (`sum / max(len, 1)`). -/
def avgGap (ts : List ℚ) : ℚ :=
  (consecDiffs ts).sum / max ((consecDiffs ts).length : ℚ) 1

/-- Burst-timing indicator exactly as coded: at least 3 events, and the
average gap across consecutive timestamps *in list order* below 5
seconds.  (Only events carrying the `INGEST_TIME` key contribute a
timestamp; the list is not sorted.) -/
def burstContrib (events : List Event) : ℚ :=
  let ts := events.filterMap (fun e => e.ingestTime.bind fromisoformat)
  if 3 ≤ events.length ∧ 2 ≤ ts.length ∧ avgGap ts < 5 then 0.3 else 0

/-- Insertion of a rational into a sorted list (for the spec-side
sorted-timestamps reading). -/
def insertSorted (x : ℚ) : List ℚ → List ℚ
  | [] => [x]
  | y :: ys => if x ≤ y then x :: y :: ys else y :: insertSorted x ys

/-- Insertion sort on rationals. -/
def sortQ : List ℚ → List ℚ
  | [] => []
  | x :: xs => insertSorted x (sortQ xs)

/-- Burst-timing indicator as the spec words it: the average inter-event
gap across consecutive, *timestamp-sorted* events. -/
def burstContribSorted (events : List Event) : ℚ :=
  let ts := sortQ (events.filterMap (fun e => e.ingestTime.bind fromisoformat))
  if 3 ≤ events.length ∧ 2 ≤ ts.length ∧ avgGap ts < 5 then 0.3 else 0

/-- Models `MLAnomalyDetector.detect_anomalies`: returns 0 when ML is disabled
or no baseline was built; otherwise accumulates the three indicators
(with their trigger count) and caps the sum at 1.0 when any indicator
fired.  The timestamp extraction can raise on a malformed stamp, but
only when the entity has at least 3 events. -/
def detect_anomalies (b : Baselines) (_ip : String) (events : List Event) :
    Except Unit ℚ :=
  match b with
  | none => .ok 0
  | some bd =>
    if ¬ cfg.ENABLE_ML_ANOMALY_DETECTION then .ok 0
    else
      let s1 := freqContrib bd events
      let i1 : ℕ := if (events.length : ℚ) > bd.ipFreqMean * 3 then 1 else 0
      let s2 := skewContrib bd events
      let i2 : ℕ := (skewedTypes bd events).length
      if 3 ≤ events.length then
        match extractTimes events with
        | .error u => .error u
        | .ok ts =>
          let s3 : ℚ := if 2 ≤ ts.length ∧ avgGap ts < 5 then 0.3 else 0
          let i3 : ℕ := if 2 ≤ ts.length ∧ avgGap ts < 5 then 1 else 0
          let score := s1 + s2 + s3
          .ok (if 0 < i1 + i2 + i3 then min score 1 else score)
      else
        let score := s1 + s2
        .ok (if 0 < i1 + i2 then min score 1 else score)

/-- The full anomaly score as the spec's C7 sentence reads it: sum of
the three indicators with the *sorted* burst reading, capped at 1. -/
def detectAnomaliesSortedSpec (b : Baselines) (_ip : String)
    (events : List Event) : ℚ :=
  match b with
  | none => 0
  | some bd =>
    if ¬ cfg.ENABLE_ML_ANOMALY_DETECTION then 0
    else min (freqContrib bd events + skewContrib bd events
              + burstContribSorted events) 1

/- ==================== analysis_engine.py ==================== -/

/-- An alert dict as built by the two detection rules; keys absent from
a rule's dict are `none`. -/
structure Alert where
  alertId : String
  incidentState : String
  category : String
  threatType : String
  threatLevel : String
  sourceIp : Option String := none
  username : Option String := none
  failedAttempts : Option ℕ := none
  successfulLogins : Option ℕ := none
  uniqueIps : Option (List String) := none
  ipCount : Option ℕ := none
  riskScore : ℤ
  confidence : ℤ
  mlAnomalyScore : Option ℚ := none
  geoCountry : Option String := none
  firstSeen : Option TimeStr := none
  lastSeen : Option TimeStr := none
  mitreAttack : Option MitreEntry := none
  killChainPhase : Option String := none
  alertSource : String
  toolVersion : Option String := none
deriving DecidableEq, Repr

/-- The engine's ambient run context: the wall clock, the pain-bias
signal (`memory.pain_index()` or 0 when no memory subsystem), the
breach clock (`none` when no time engine) and the ML baselines. -/
structure Ctx where
  now : ℚ
  painBias : ℚ
  breachClock : Option ℚ
  baselines : Baselines

/-- Models `_alert_id`: the source hashes seed + wall clock with MD5; the hash
is abstracted by a plain encoding of the same data. -/
def mkAlertId (seed : String) (now : ℚ) : String :=
  seed ++ "@" ++ toString now.num ++ ":" ++ toString now.den

/-- Models `_classify_threat`. -/
def classify_threat (risk : ℤ) : String :=
  if 80 ≤ risk then "CRITICAL"
  else if 60 ≤ risk then "HIGH"
  else "MEDIUM"

/-- The windowed subset of `_analyze_ip`: events whose `INGEST_TIME`
parses and lies within the last `FAILED_LOGIN_WINDOW`; a missing key or
malformed stamp is skipped (`try/except: continue`). -/
def recentEvents (now : ℚ) (events : List Event) : List Event :=
  events.filter fun e =>
    match e.ingestTime with
    | some ts =>
      match fromisoformat ts with
      | some t => decide (t > now - (cfg.FAILED_LOGIN_WINDOW_MINUTES : ℚ) * 60)
      | none => false
    | none => false

/-- The `failed` count of `_analyze_ip`: windowed events whose event type contains
`"FAILED"`. -/
def failedCount (now : ℚ) (events : List Event) : ℕ :=
  ((recentEvents now events).filter
    (fun e => strIn "FAILED" (e.eventType.getD ""))).length

/-- The `success` count of `_analyze_ip`: over the *entire* event set, events
whose event type contains `"ACCEPTED"`. -/
def acceptedCount (events : List Event) : ℕ :=
  (events.filter (fun e => strIn "ACCEPTED" (e.eventType.getD ""))).length

/-- The ML step of `_analyze_ip`: the anomaly score (0 when ML is
disabled) and the `ML_ANOMALIES_DETECTED` stats increment. -/
def mlStep (ctx : Ctx) (ip : String) (events : List Event) :
    Except Unit (ℚ × ℕ) :=
  if cfg.ENABLE_ML_ANOMALY_DETECTION then
    (detect_anomalies ctx.baselines ip events).map
      (fun s => (s, if cfg.ANOMALY_THRESHOLD ≤ s then 1 else 0))
  else .ok (0, 0)

/-- The false-positive suppression condition of `_analyze_ip`. -/
def suppressCond (painBias : ℚ) (failed success : ℕ) : Bool :=
  cfg.ENABLE_FP_REDUCTION
  && decide (cfg.FP_SUCCESSFUL_LOGIN_THRESHOLD ≤ success)
  && decide (failed < cfg.FAILED_LOGIN_THRESHOLD)
  && decide (painBias < 0.3)

/-- Models `events[0]["INGEST_TIME"]` and `events[-1]["INGEST_TIME"]`: raises
on an empty group or a missing key. -/
def firstLastIngest (events : List Event) : Except Unit (TimeStr × TimeStr) :=
  match events.head?, events.getLast? with
  | some e0, some eL =>
    match e0.ingestTime, eL.ingestTime with
    | some f, some l => .ok (f, l)
    | _, _ => .error ()
  | _, _ => .error ()

/-- The breach-clock adjustment applied to the risk score inside
`_analyze_ip` (`+10` capped at `MAX_RISK_SCORE` when the time engine's
breach clock exceeds 0.6). -/
def riskAdjust (breachClock : Option ℚ) (risk : ℤ) : ℤ :=
  match breachClock with
  | some bc => if bc > 0.6 then min (risk + 10) cfg.MAX_RISK_SCORE else risk
  | none => risk

/-- Models `round(x, 2)` on the ML score.  (Python rounds half to even; the
engine's scores are multiples of 0.1, where the two agree.) -/
def round2 (q : ℚ) : ℚ := (round (q * 100) : ℚ) / 100

/-- The brute-force alert dict built by `_analyze_ip` once
`failed ≥ FAILED_LOGIN_THRESHOLD`. -/
def mkBruteAlert (ctx : Ctx) (ip : String) (events : List Event)
    (mlScore : ℚ) (fl : TimeStr × TimeStr) : Alert :=
  let failed := failedCount ctx.now events
  let success := acceptedCount events
  let threats := check_ip_reputation ip
  let geo := get_geoip_info ip
  let risk := riskAdjust ctx.breachClock
    (calculate_risk_score failed 0
      (cfg.GEO_RISK_COUNTRIES.contains geo.country) (!threats.isEmpty)
      false false 0 0 mlScore)
  let confidence := calculate_confidence_level 0.9 (!threats.isEmpty)
    (if mlScore > 0.5 then 0.6 else 1.0) 0
  let mitre := mitreGet "SSH_BRUTE_FORCE"
  { alertId := mkAlertId ip ctx.now
    incidentState := "OPEN"
    category := "AUTHENTICATION"
    threatType := "SSH_BRUTE_FORCE"
    threatLevel := classify_threat risk
    sourceIp := some ip
    failedAttempts := some failed
    successfulLogins := some success
    riskScore := risk
    confidence := confidence
    mlAnomalyScore := some (round2 mlScore)
    geoCountry := some geo.country
    firstSeen := some fl.1
    lastSeen := some fl.2
    mitreAttack := mitre
    killChainPhase := mitre.map MitreEntry.tactic
    alertSource := cfg.TOOL_NAME
    toolVersion := some cfg.TOOL_VERSION }

/-- The result of one `_analyze_ip` call: the emitted alerts and the
increments to the `FALSE_POSITIVES_SUPPRESSED` /
`ML_ANOMALIES_DETECTED` run counters. -/
structure IpOut where
  alerts : List Alert
  suppressed : ℕ
  mlAnomalies : ℕ
deriving DecidableEq, Repr

/-- Models `AnalysisEngine._analyze_ip`.  The `Except` layer carries the
uncaught exceptions the body can raise (malformed `INGEST_TIME` inside
`detect_anomalies`; empty group or missing key at the
`FIRST_SEEN`/`LAST_SEEN` lookups). -/
def analyze_ip (ctx : Ctx) (ip : String) (events : List Event) :
    Except Unit IpOut :=
  match mlStep ctx ip events with
  | .error u => .error u
  | .ok (mlScore, anomInc) =>
    let failed := failedCount ctx.now events
    let success := acceptedCount events
    if suppressCond ctx.painBias failed success then
      .ok ⟨[], 1, anomInc⟩
    else if cfg.FAILED_LOGIN_THRESHOLD ≤ failed then
      match firstLastIngest events with
      | .error u => .error u
      | .ok fl => .ok ⟨[mkBruteAlert ctx ip events mlScore fl], 0, anomInc⟩
    else
      .ok ⟨[], 0, anomInc⟩

/-- The distinct truthy `ip` values of a user's events (the Python set
comprehension, in deterministic first-seen order). -/
def distinctIps (events : List Event) : List String :=
  firstUniq [] (truthyVals Event.ip events)

/-- Models `AnalysisEngine._analyze_user`: the account-compromise rule.  The
threshold is the literal `4` in the source; `cfg.ACCOUNT_IP_THRESHOLD`
is not consulted. -/
def analyze_user (now : ℚ) (user : String) (events : List Event) :
    List Alert :=
  let ips := distinctIps events
  if 4 ≤ ips.length then
    let mitre := mitreGet "ACCOUNT_COMPROMISE"
    [ { alertId := mkAlertId user now
        incidentState := "OPEN"
        category := "LATERAL_MOVEMENT"
        threatType := "POTENTIAL_ACCOUNT_COMPROMISE"
        username := some user
        uniqueIps := some ips
        ipCount := some ips.length
        threatLevel := "MEDIUM"
        riskScore := 60
        confidence := 70
        mitreAttack := mitre
        killChainPhase := mitre.map MitreEntry.tactic
        alertSource := cfg.TOOL_NAME } ]
  else []

/- ==================== deduplication ==================== -/

/-- The dedup key of `_deduplicate`: `(THREAT_TYPE, SOURCE_IP)` only. -/
def alertKey (a : Alert) : String × Option String :=
  (a.threatType, a.sourceIp)

/-- Lookup in the `seen` map (modelled as an association list where the
newest binding for a key shadows older ones). -/
def lookupSeen (seen : List ((String × Option String) × ℚ))
    (k : String × Option String) : Option ℚ :=
  match seen with
  | [] => none
  | (k', t) :: rest => if k' = k then some t else lookupSeen rest k

/-- The loop of `_deduplicate`: each alert is paired with the wall-clock
instant at which the loop processes it (`datetime.utcnow()` per
iteration); an alert whose key was seen less than the window ago is
dropped, otherwise it is kept and the key's timestamp refreshed. -/
def dedupGo (w : ℚ) (seen : List ((String × Option String) × ℚ)) :
    List (Alert × ℚ) → List Alert
  | [] => []
  | (a, now) :: rest =>
    let k := alertKey a
    match lookupSeen seen k with
    | some t0 =>
      if now - t0 < w then dedupGo w seen rest
      else a :: dedupGo w ((k, now) :: seen) rest
    | none => a :: dedupGo w ((k, now) :: seen) rest

/-- The final `seen` map after processing a list of alerts. -/
def seenAfter (w : ℚ) (seen : List ((String × Option String) × ℚ)) :
    List (Alert × ℚ) → List ((String × Option String) × ℚ)
  | [] => seen
  | (a, now) :: rest =>
    let k := alertKey a
    match lookupSeen seen k with
    | some t0 =>
      if now - t0 < w then seenAfter w seen rest
      else seenAfter w ((k, now) :: seen) rest
    | none => seenAfter w ((k, now) :: seen) rest

/-- Models `AnalysisEngine._deduplicate`, from the empty `seen` map. -/
def deduplicate (pairs : List (Alert × ℚ)) : List Alert :=
  dedupGo ((cfg.ALERT_DEDUP_WINDOW_MINUTES : ℚ) * 60) [] pairs

/- ==================== correlation and entry point ==================== -/

/-- The IP half of `_correlate`: distinct truthy IPs in first-seen
order, each analyzed on its group (events with that exact `ip`). -/
def correlateIps (ctx : Ctx) (events : List Event) :
    List String → Except Unit (List Alert)
  | [] => .ok []
  | ip :: rest =>
    match analyze_ip ctx ip (events.filter (fun e => e.ip = some ip)) with
    | .error u => .error u
    | .ok out => (correlateIps ctx events rest).map (fun l => out.alerts ++ l)

/-- The user half of `_correlate`. -/
def correlateUsers (ctx : Ctx) (events : List Event) : List Alert :=
  ((firstUniq [] (truthyVals Event.user events)).map
    (fun u => analyze_user ctx.now u
      (events.filter (fun e => e.user = some u)))).flatten

/-- Models `AnalysisEngine._correlate`: group by IP and by user, analyze each
group, IP alerts first. -/
def correlate (ctx : Ctx) (events : List Event) : Except Unit (List Alert) :=
  (correlateIps ctx events (firstUniq [] (truthyVals Event.ip events))).map
    (fun l => l ++ correlateUsers ctx events)

/-- Models `AnalysisEngine._apply_time_pressure`: under high breach pressure,
escalate `HIGH` alerts to `CRITICAL`. -/
def apply_time_pressure (breachClock : Option ℚ) (alerts : List Alert) :
    List Alert :=
  match breachClock with
  | none => alerts
  | some bc =>
    if bc > cfg.BREACH_PROBABILITY_WARNING then
      alerts.map (fun a =>
        if a.threatLevel = "HIGH" then { a with threatLevel := "CRITICAL" }
        else a)
    else alerts

/-- Models `AnalysisEngine.analyze_file`.  The file system and line parser are
abstracted by `fileOk` (does the input file exist?) and by the event
list the parser yields from its lines; a missing file displays a UI
error and returns the empty list without running the pipeline.  The
dedup pass stamps every alert with the engine's clock (consecutive
`utcnow()` calls within one run, here one instant). -/
def analyze_file (now painBias : ℚ) (breachClock : Option ℚ)
    (fileOk : Bool) (events : List Event) : Except Unit (List Alert) :=
  if !fileOk then .ok []
  else
    let ctx : Ctx :=
      { now := now, painBias := painBias, breachClock := breachClock
        baselines := build_baseline events }
    match correlate ctx events with
    | .error u => .error u
    | .ok alerts =>
      let alerts :=
        if cfg.ENABLE_ALERT_DEDUPLICATION then
          deduplicate (alerts.map (fun a => (a, now)))
        else alerts
      .ok (apply_time_pressure breachClock alerts)

/- ==================== derived forms and concrete inputs ==================== -/

/-- The value `detect_anomalies` computes on well-timed input: the three
indicator contributions summed and capped at 1 (0 without a baseline). -/
def anomalyTotal (b : Baselines) (events : List Event) : ℚ :=
  match b with
  | none => 0
  | some bd =>
    min (freqContrib bd events + skewContrib bd events + burstContrib events) 1

/-- The dedup window in seconds. -/
def dedupWindow : ℚ := (cfg.ALERT_DEDUP_WINDOW_MINUTES : ℚ) * 60

/-- A parsed failed-SSH-login event at instant `q` (concrete input). -/
def exFailed (q : ℚ) : Event :=
  { eventType := some "SSH_FAILED_PASSWORD", ip := some "1.2.3.4"
    user := some "root", ingestTime := some (.valid q) }

/-- A parsed accepted-SSH-login event at instant `q` (concrete input). -/
def exAccepted (q : ℚ) : Event :=
  { eventType := some "SSH_ACCEPTED_PASSWORD", ip := some "1.2.3.4"
    user := some "root", ingestTime := some (.valid q) }

/-- A parsed event tying user `u` to source IP `s` (concrete input). -/
def exUserIp (u s : String) : Event :=
  { eventType := some "SSH_FAILED_PASSWORD", ip := some s, user := some u
    ingestTime := some (.valid 0) }

/-- A bare event carrying only a timestamp (concrete input). -/
def exStamp (q : ℚ) : Event := { ingestTime := some (.valid q) }

/-- An event whose `INGEST_TIME` string does not parse (concrete input). -/
def exBadStamp : Event := { ingestTime := some TimeStr.malformed }

/-- Minimal context: clock at 1000, neutral cognitive signals, no
baseline. -/
def ctxPlain : Ctx :=
  { now := 1000, painBias := 0, breachClock := none, baselines := none }

/-- Five failed logins from one IP, one second apart, all inside the
5-minute window of `ctxPlain.now`. -/
def evsBrute : List Event :=
  [exFailed 996, exFailed 997, exFailed 998, exFailed 999, exFailed 1000]

/-- Five failed logins ten seconds apart (burst indicator not
triggered), inside the window of clock 1000. -/
def evsBrute10 : List Event :=
  [exFailed 960, exFailed 970, exFailed 980, exFailed 990, exFailed 1000]

/-- Context with an elevated breach clock (0.7 > 0.6), used to exhibit
the post-scorer risk adjustment; the baseline is the one a run over
`evsBrute10` builds. -/
def ctxBreach : Ctx :=
  { now := 1000, painBias := 0, breachClock := some 0.7
    baselines := build_baseline evsBrute10 }

/-- Three accepted logins and one failed login (suppression scenario). -/
def evsSuppress : List Event :=
  [exAccepted 996, exAccepted 997, exAccepted 998, exFailed 999]

/-- User `bob` seen from exactly three distinct IPs. -/
def evsThreeIps : List Event :=
  [exUserIp "bob" "1.1.1.1", exUserIp "bob" "2.2.2.2", exUserIp "bob" "3.3.3.3"]

/-- User `bob` seen from four distinct IPs. -/
def evsFourIps : List Event :=
  [exUserIp "bob" "1.1.1.1", exUserIp "bob" "2.2.2.2",
   exUserIp "bob" "3.3.3.3", exUserIp "bob" "4.4.4.4"]

/-- User `alice` seen from four distinct IPs. -/
def evsFourIpsAlice : List Event :=
  [exUserIp "alice" "5.5.5.5", exUserIp "alice" "6.6.6.6",
   exUserIp "alice" "7.7.7.7", exUserIp "alice" "8.8.8.8"]

/-- A nonempty baseline (mean 1 event per IP, no type distribution). -/
def bOne : Baselines := some ⟨1, 1, []⟩

/-- Three timestamped events whose list order `[10, 0, 11]` is not the
timestamp order: the in-order average gap is 1/2 s, the sorted average
gap is 11/2 s. -/
def evsOutOfOrder : List Event := [exStamp 10, exStamp 0, exStamp 11]

/-- Three events with malformed timestamp strings. -/
def evsMalformed : List Event := [exBadStamp, exBadStamp, exBadStamp]

/-- A malformed-stamp event next to a parseable one. -/
def evsMixed : List Event := [exBadStamp, exStamp (-10)]

/-- A bare alert value used to exercise the deduplicator directly. -/
def exAlert (tt : String) (ipo : Option String) : Alert :=
  { alertId := "id", incidentState := "OPEN", category := "AUTHENTICATION"
    threatType := tt, threatLevel := "MEDIUM", sourceIp := ipo
    riskScore := 30, confidence := 50, alertSource := cfg.TOOL_NAME }

/-- The account-compromise alert the user rule emits for `bob` over
`evsFourIps`. -/
def alertBob : Alert :=
  (analyze_user 0 "bob" evsFourIps).headD (exAlert "" none)

/-- The account-compromise alert the user rule emits for `alice` over
`evsFourIpsAlice`. -/
def alertAlice : Alert :=
  (analyze_user 0 "alice" evsFourIpsAlice).headD (exAlert "" none)

/- ==================== helper lemmas ==================== -/

theorem truncInt_nonneg {q : ℚ} (h : 0 ≤ q) : 0 ≤ truncInt q := by
  unfold truncInt
  rw [if_neg (not_lt.mpr h)]
  exact Int.le_floor.mpr (by exact_mod_cast h)

theorem extractTimes_eq {events : List Event}
    (h : ∀ e ∈ events, timeOk e = true) :
    extractTimes events =
      .ok (events.filterMap (fun e => e.ingestTime.bind fromisoformat)) := by
  induction events with
  | nil => rfl
  | cons e rest ih =>
    have he := h e (by simp)
    have hr := ih (fun x hx => h x (by simp [hx]))
    cases hts : e.ingestTime with
    | none => simp [extractTimes, hts, hr]
    | some ts =>
      have hsome : (fromisoformat ts).isSome = true := by
        unfold timeOk at he
        rw [hts] at he
        exact he
      obtain ⟨t, ht⟩ := Option.isSome_iff_exists.mp hsome
      simp [extractTimes, hts, ht, hr, Except.map]

theorem cap_helper (u v : ℚ) (c1 c3 : Prop) [Decidable c1] [Decidable c3]
    (k : ℕ) (hu : ¬c1 → u = 0) (hv : k = 0 → v = 0) :
    (if 0 < (if c1 then 1 else 0) + k + (if c3 then 1 else 0)
     then (u + v + (if c3 then (0.3:ℚ) else 0)) ⊓ 1
     else u + v + (if c3 then (0.3:ℚ) else 0))
    = (u + v + (if c3 then (0.3:ℚ) else 0)) ⊓ 1 := by
  by_cases hc1 : c1 <;> by_cases hc3 : c3
  · simp only [if_pos hc1, if_pos hc3]
    rw [if_pos (by omega)]
  · simp only [if_pos hc1, if_neg hc3]
    rw [if_pos (by omega)]
  · simp only [if_neg hc1, if_pos hc3]
    rw [if_pos (by omega)]
  · simp only [if_neg hc1, if_neg hc3]
    by_cases hk : k = 0
    · rw [if_neg (by omega), hu hc1, hv hk]
      norm_num
    · rw [if_pos (by omega)]

theorem cap_helper2 (u v : ℚ) (c1 : Prop) [Decidable c1]
    (k : ℕ) (hu : ¬c1 → u = 0) (hv : k = 0 → v = 0) :
    (if 0 < (if c1 then 1 else 0) + k then (u + v) ⊓ 1 else u + v)
    = (u + v) ⊓ 1 := by
  by_cases hc1 : c1
  · simp only [if_pos hc1]
    rw [if_pos (by omega)]
  · simp only [if_neg hc1]
    by_cases hk : k = 0
    · rw [if_neg (by omega), hu hc1, hv hk]
      norm_num
    · rw [if_pos (by omega)]

theorem detect_eval {b : Baselines} {ip : String} {events : List Event}
    (h : ∀ e ∈ events, timeOk e = true) :
    detect_anomalies b ip events = .ok (anomalyTotal b events) := by
  cases b with
  | none => rfl
  | some bd =>
    unfold detect_anomalies anomalyTotal
    dsimp only
    rw [if_neg (by simp [cfg.ENABLE_ML_ANOMALY_DETECTION])]
    by_cases h3 : 3 ≤ events.length
    · rw [if_pos h3, extractTimes_eq h]
      simp only [burstContrib, h3, true_and]
      congr 1
      exact cap_helper (freqContrib bd events) (skewContrib bd events) _ _ _
        (fun hc => by simp [freqContrib, hc])
        (fun hk => by simp [skewContrib, hk])
    · rw [if_neg h3]
      have hb : burstContrib events = 0 := by
        simp [burstContrib, h3]
      rw [hb, add_zero]
      congr 1
      exact cap_helper2 (freqContrib bd events) (skewContrib bd events) _ _
        (fun hc => by simp [freqContrib, hc])
        (fun hk => by simp [skewContrib, hk])

theorem timeOk_of_wellTimed {e : Event} (h : wellTimed e = true) :
    timeOk e = true := by
  unfold wellTimed at h
  unfold timeOk
  cases hts : e.ingestTime with
  | none => rfl
  | some ts => rw [hts] at h; exact h

theorem mlStep_eval {ctx : Ctx} {ip : String} {events : List Event}
    (h : ∀ e ∈ events, timeOk e = true) :
    mlStep ctx ip events =
      .ok (anomalyTotal ctx.baselines events,
        if cfg.ANOMALY_THRESHOLD ≤ anomalyTotal ctx.baselines events
        then 1 else 0) := by
  unfold mlStep
  rw [if_pos (by simp [cfg.ENABLE_ML_ANOMALY_DETECTION]), detect_eval h]
  rfl

theorem getLast?_mem : ∀ {l : List Event} {e : Event},
    l.getLast? = some e → e ∈ l := by
  intro l
  induction l with
  | nil => intro e h; cases h
  | cons a rest ih =>
    intro e h
    cases rest with
    | nil =>
      simp [List.getLast?] at h
      simp [h]
    | cons b t =>
      rw [List.getLast?_cons_cons] at h
      exact List.mem_cons_of_mem a (ih h)

theorem firstLast_ok {events : List Event} (hne : events ≠ [])
    (h : ∀ e ∈ events, wellTimed e = true) :
    ∃ fl, firstLastIngest events = .ok fl := by
  obtain ⟨e0, rest, rfl⟩ := List.exists_cons_of_ne_nil hne
  have hL : (e0 :: rest).getLast?.isSome := by
    rw [List.getLast?_isSome]
    simp
  obtain ⟨eL, hEL⟩ := Option.isSome_iff_exists.mp hL
  have h0 := h e0 (by simp)
  have hLmem := h eL (getLast?_mem hEL)
  unfold wellTimed at h0 hLmem
  unfold firstLastIngest
  rw [List.head?_cons, hEL]
  dsimp only
  cases h0ts : e0.ingestTime with
  | none => rw [h0ts] at h0; cases h0
  | some f =>
    cases hLts : eL.ingestTime with
    | none => rw [hLts] at hLmem; cases hLmem
    | some l => exact ⟨(f, l), rfl⟩

theorem events_ne_nil_of_failed {now : ℚ} {events : List Event}
    (h : 0 < failedCount now events) : events ≠ [] := by
  intro he
  rw [he] at h
  simp [failedCount, recentEvents] at h

/- ==================== C2 ==================== -/

/-- C2: for all valid inputs (non-negative counts, boolean flags,
`data_quality`, `behavioral_consistency` and `ml_anomaly_score` in
[0,1]), `calculate_risk_score` returns an integer in [0,100] and
`calculate_confidence_level` returns an integer in [10,100]. -/
theorem score_bounds
    (fa ps uu we fp : ℕ) (geo ti tor saf tim : Bool) (ml dq bc : ℚ)
    (hml0 : 0 ≤ ml) (hml1 : ml ≤ 1)
    (hdq0 : 0 ≤ dq) (hdq1 : dq ≤ 1)
    (hbc0 : 0 ≤ bc) (hbc1 : bc ≤ 1) :
    (0 ≤ calculate_risk_score fa ps geo ti tor saf uu we ml
      ∧ calculate_risk_score fa ps geo ti tor saf uu we ml ≤ 100)
    ∧ (10 ≤ calculate_confidence_level dq tim bc fp
      ∧ calculate_confidence_level dq tim bc fp ≤ 100) := by
  refine ⟨⟨?_, min_le_right _ _⟩, le_max_left _ _,
    max_le (by norm_num) (min_le_right _ _)⟩
  unfold calculate_risk_score
  refine le_min ?_ (by norm_num)
  apply truncInt_nonneg
  have hml30 : (0:ℚ) ≤ ml * 30 := mul_nonneg hml0 (by norm_num)
  refine add_nonneg (add_nonneg (add_nonneg (add_nonneg (add_nonneg
    (add_nonneg (add_nonneg (add_nonneg ?_ ?_) ?_) ?_) ?_) ?_) ?_) ?_) hml30
  · simp only [cfg.WEIGHT_FAILED_AUTH]
    positivity
  · simp only [cfg.WEIGHT_PORT_SCAN]
    positivity
  · split <;> norm_num [cfg.WEIGHT_GEO_RISK]
  · split <;> norm_num [cfg.WEIGHT_THREAT_INTEL]
  · split <;> norm_num [cfg.WEIGHT_TOR_EXIT]
  · split <;> norm_num
  · split
    · positivity
    · norm_num
  · split <;> norm_num

/-- C2 witness: the bounds evaluated at a concrete valid input. -/
theorem score_bounds_witness :
    (0 ≤ calculate_risk_score 6 0 true false false false 0 0 (1/2)
      ∧ calculate_risk_score 6 0 true false false false 0 0 (1/2) ≤ 100)
    ∧ (10 ≤ calculate_confidence_level (9/10) false 1 0
      ∧ calculate_confidence_level (9/10) false 1 0 ≤ 100) :=
  score_bounds 6 0 0 0 0 true false false false false (1/2) (9/10) 1
    (by norm_num) (by norm_num) (by norm_num) (by norm_num)
    (by norm_num) (by norm_num)

/- ==================== C1 ==================== -/

/-- C1: per IP, `failed` counts events inside the failed-login window
whose event type denotes failed authentication and `success` counts
accepted-authentication events over the whole (non-windowed) group;
whenever `failed ≥ FAILED_LOGIN_THRESHOLD` (suppression cannot apply
there, since it requires `failed` below the threshold) exactly one
candidate alert is emitted, with category AUTHENTICATION, threat type
SSH_BRUTE_FORCE and both counts among its features. -/
theorem brute_force_rule (ctx : Ctx) (ip : String) (events : List Event)
    (hw : ∀ e ∈ events, wellTimed e = true)
    (hf : cfg.FAILED_LOGIN_THRESHOLD ≤ failedCount ctx.now events) :
    ∃ a m, analyze_ip ctx ip events = .ok ⟨[a], 0, m⟩
      ∧ a.category = "AUTHENTICATION"
      ∧ a.threatType = "SSH_BRUTE_FORCE"
      ∧ a.failedAttempts = some (failedCount ctx.now events)
      ∧ a.successfulLogins = some (acceptedCount events) := by
  have htok : ∀ e ∈ events, timeOk e = true :=
    fun e he => timeOk_of_wellTimed (hw e he)
  have hne : events ≠ [] :=
    events_ne_nil_of_failed
      (lt_of_lt_of_le (by norm_num [cfg.FAILED_LOGIN_THRESHOLD]) hf)
  obtain ⟨fl, hfl⟩ := firstLast_ok hne hw
  unfold analyze_ip
  rw [mlStep_eval htok]
  dsimp only
  have hsup : suppressCond ctx.painBias (failedCount ctx.now events)
      (acceptedCount events) = false := by
    unfold suppressCond
    rw [decide_eq_false (not_lt.mpr hf)]
    simp
  rw [hsup]
  simp only [Bool.false_eq_true, if_false]
  rw [if_pos hf, hfl]
  exact ⟨_, _, rfl, rfl, rfl, rfl, rfl⟩

/-- C1 witness: five in-window failed logins from one IP yield exactly
one SSH_BRUTE_FORCE alert carrying failed=5 and success=0. -/
theorem brute_force_rule_witness :
    ∃ a m, analyze_ip ctxPlain "1.2.3.4" evsBrute = .ok ⟨[a], 0, m⟩
      ∧ a.category = "AUTHENTICATION"
      ∧ a.threatType = "SSH_BRUTE_FORCE"
      ∧ a.failedAttempts = some (failedCount ctxPlain.now evsBrute)
      ∧ a.successfulLogins = some (acceptedCount evsBrute) :=
  brute_force_rule ctxPlain "1.2.3.4" evsBrute
    (of_decide_eq_true (by with_unfolding_all rfl))
    (of_decide_eq_true (by with_unfolding_all rfl))

/- ==================== C3 ==================== -/

/-- C3: with false-positive reduction enabled, a group with
`success ≥ FP_SUCCESS_THRESHOLD` and `failed < FAILED_LOGIN_THRESHOLD`
yields zero alerts and is counted as suppressed when the pain-bias
signal is below its 0.3 threshold; at or above the threshold the
suppression is overridden (nothing is counted as suppressed) and the
alert path proceeds (emitting nothing here only because `failed` is
below the alert threshold). -/
theorem fp_suppression (ctx : Ctx) (ip : String) (events : List Event)
    (hw : ∀ e ∈ events, timeOk e = true)
    (hs : cfg.FP_SUCCESSFUL_LOGIN_THRESHOLD ≤ acceptedCount events)
    (hfl : failedCount ctx.now events < cfg.FAILED_LOGIN_THRESHOLD) :
    (ctx.painBias < 0.3 → ∃ m, analyze_ip ctx ip events = .ok ⟨[], 1, m⟩)
    ∧ (0.3 ≤ ctx.painBias → ∃ m, analyze_ip ctx ip events = .ok ⟨[], 0, m⟩) := by
  constructor
  · intro hp
    unfold analyze_ip
    rw [mlStep_eval hw]
    dsimp only
    have hsup : suppressCond ctx.painBias (failedCount ctx.now events)
        (acceptedCount events) = true := by
      unfold suppressCond
      rw [decide_eq_true hs, decide_eq_true hfl, decide_eq_true hp]
      rfl
    rw [hsup]
    exact ⟨_, rfl⟩
  · intro hp
    unfold analyze_ip
    rw [mlStep_eval hw]
    dsimp only
    have hsup : suppressCond ctx.painBias (failedCount ctx.now events)
        (acceptedCount events) = false := by
      unfold suppressCond
      rw [decide_eq_false (not_lt.mpr hp)]
      simp
    rw [hsup]
    simp only [Bool.false_eq_true, if_false]
    rw [if_neg (not_le.mpr hfl)]
    exact ⟨_, rfl⟩

/-- C3 witness: three accepted logins and one failed login in a context
with pain bias 0: the suppression hypotheses hold concretely. -/
theorem fp_suppression_witness :
    (ctxPlain.painBias < 0.3
      → ∃ m, analyze_ip ctxPlain "1.2.3.4" evsSuppress = .ok ⟨[], 1, m⟩)
    ∧ (0.3 ≤ ctxPlain.painBias
      → ∃ m, analyze_ip ctxPlain "1.2.3.4" evsSuppress = .ok ⟨[], 0, m⟩) :=
  fp_suppression ctxPlain "1.2.3.4" evsSuppress
    (of_decide_eq_true (by with_unfolding_all rfl))
    (of_decide_eq_true (by with_unfolding_all rfl))
    (of_decide_eq_true (by with_unfolding_all rfl))

/- ==================== C4 ==================== -/

theorem dedupGo_append (w : ℚ) (l r : List (Alert × ℚ)) :
    ∀ seen, dedupGo w seen (l ++ r)
      = dedupGo w seen l ++ dedupGo w (seenAfter w seen l) r := by
  induction l with
  | nil => intro seen; rfl
  | cons p tl ih =>
    intro seen
    obtain ⟨a, t⟩ := p
    simp only [List.cons_append, dedupGo, seenAfter]
    cases h : lookupSeen seen (alertKey a) with
    | some t0 =>
      by_cases hlt : t - t0 < w
      · simp [h, hlt, ih]
      · simp [h, hlt, ih]
    | none => simp [h, ih]

theorem seenAfter_append (w : ℚ) (l r : List (Alert × ℚ)) :
    ∀ seen, seenAfter w seen (l ++ r)
      = seenAfter w (seenAfter w seen l) r := by
  induction l with
  | nil => intro seen; rfl
  | cons p tl ih =>
    intro seen
    obtain ⟨a, t⟩ := p
    simp only [List.cons_append, seenAfter]
    cases h : lookupSeen seen (alertKey a) with
    | some t0 =>
      by_cases hlt : t - t0 < w
      · simp [h, hlt, ih]
      · simp [h, hlt, ih]
    | none => simp [h, ih]

theorem lookupSeen_cons_ne {k k' : String × Option String} {t : ℚ}
    {seen : List ((String × Option String) × ℚ)} (h : k' ≠ k) :
    lookupSeen ((k', t) :: seen) k = lookupSeen seen k := by
  simp [lookupSeen, h]

theorem seenAfter_no_key (w : ℚ) (l : List (Alert × ℚ))
    (k : String × Option String) (hl : ∀ p ∈ l, alertKey p.1 ≠ k) :
    ∀ seen, lookupSeen (seenAfter w seen l) k = lookupSeen seen k := by
  induction l with
  | nil => intro seen; rfl
  | cons p tl ih =>
    intro seen
    obtain ⟨a, t⟩ := p
    have ha : alertKey a ≠ k := hl (a, t) (by simp)
    have htl : ∀ p ∈ tl, alertKey p.1 ≠ k := fun p hp => hl p (by simp [hp])
    simp only [seenAfter]
    cases h : lookupSeen seen (alertKey a) with
    | some t0 =>
      by_cases hlt : t - t0 < w
      · simp [h, hlt, ih htl]
      · simp only [h, hlt, if_false]
        rw [ih htl, lookupSeen_cons_ne ha]
    | none =>
      simp only [h]
      rw [ih htl, lookupSeen_cons_ne ha]

theorem seenAfter_keep_within (w : ℚ) (l : List (Alert × ℚ))
    (k : String × Option String) (ta : ℚ)
    (hl : ∀ p ∈ l, alertKey p.1 = k → p.2 - ta < w) :
    ∀ seen, lookupSeen seen k = some ta →
      lookupSeen (seenAfter w seen l) k = some ta := by
  induction l with
  | nil => intro seen hs; exact hs
  | cons p tl ih =>
    intro seen hs
    obtain ⟨a, t⟩ := p
    have htl : ∀ p ∈ tl, alertKey p.1 = k → p.2 - ta < w :=
      fun p hp => hl p (by simp [hp])
    simp only [seenAfter]
    by_cases hak : alertKey a = k
    · rw [hak, hs]
      dsimp only
      rw [if_pos (hl (a, t) (by simp) hak)]
      exact ih htl seen hs
    · cases h : lookupSeen seen (alertKey a) with
      | some t0 =>
        by_cases hlt : t - t0 < w
        · simp only [h, hlt, if_true]
          exact ih htl seen hs
        · simp only [h, hlt, if_false]
          exact ih htl _ (by rw [lookupSeen_cons_ne hak]; exact hs)
      | none =>
        simp only [h]
        exact ih htl _ (by rw [lookupSeen_cons_ne hak]; exact hs)

/-- C4: alerts are processed in order; when a later alert shares the
`(THREAT_TYPE, SOURCE_IP)` key of an earlier emitted alert and is
processed within the dedup window of that emission, exactly one of the
two survives — the first processed (its occurrence appears in the
output, the later one contributes nothing) — and keeping an alert
refreshes the key's last-emission time.  The hypotheses say the first
alert really is the first emission for the key (no earlier alert in the
list has it) and the loop's wall clock is monotone. -/
theorem dedup_first_wins
    (l₁ l₂ l₃ : List (Alert × ℚ)) (a b : Alert) (ta tb : ℚ)
    (hk : alertKey b = alertKey a)
    (h1 : ∀ p ∈ l₁, alertKey p.1 ≠ alertKey a)
    (h2 : ∀ p ∈ l₂, p.2 ≤ tb)
    (hmon : ta ≤ tb)
    (hwin : tb - ta < dedupWindow) :
    deduplicate (l₁ ++ ((a, ta) :: (l₂ ++ (b, tb) :: l₃)))
      = deduplicate l₁
        ++ a :: (dedupGo dedupWindow
            ((alertKey a, ta) :: seenAfter dedupWindow [] l₁) l₂
          ++ dedupGo dedupWindow
            (seenAfter dedupWindow
              ((alertKey a, ta) :: seenAfter dedupWindow [] l₁) l₂) l₃)
    ∧ lookupSeen (seenAfter dedupWindow [] (l₁ ++ [(a, ta)])) (alertKey a)
        = some ta := by
  have hw : dedupWindow = (cfg.ALERT_DEDUP_WINDOW_MINUTES : ℚ) * 60 := rfl
  have hne : lookupSeen (seenAfter dedupWindow [] l₁) (alertKey a) = none := by
    rw [seenAfter_no_key dedupWindow l₁ (alertKey a) h1]
    rfl
  constructor
  · unfold deduplicate
    rw [← hw, dedupGo_append]
    have hstep : dedupGo dedupWindow (seenAfter dedupWindow [] l₁)
        ((a, ta) :: (l₂ ++ (b, tb) :: l₃))
        = a :: dedupGo dedupWindow
            ((alertKey a, ta) :: seenAfter dedupWindow [] l₁)
            (l₂ ++ (b, tb) :: l₃) := by
      simp only [dedupGo, hne]
    rw [hstep, dedupGo_append]
    have hS3 : lookupSeen (seenAfter dedupWindow
        ((alertKey a, ta) :: seenAfter dedupWindow [] l₁) l₂) (alertKey a)
        = some ta := by
      apply seenAfter_keep_within dedupWindow l₂ (alertKey a) ta
        (fun p hp _ => lt_of_le_of_lt (by linarith [h2 p hp]) hwin)
      simp [lookupSeen]
    have hdrop : dedupGo dedupWindow (seenAfter dedupWindow
        ((alertKey a, ta) :: seenAfter dedupWindow [] l₁) l₂)
        ((b, tb) :: l₃)
        = dedupGo dedupWindow (seenAfter dedupWindow
            ((alertKey a, ta) :: seenAfter dedupWindow [] l₁) l₂) l₃ := by
      simp only [dedupGo, hk, hS3]
      rw [if_pos hwin]
    rw [hdrop]
  · rw [seenAfter_append]
    simp [seenAfter, hne, lookupSeen]

/-- C4 witness: two alerts with the same key one second apart inside the
one-hour window; the first survives, the second is dropped, and the
`seen` map holds the first's emission time. -/
theorem dedup_first_wins_witness :
    deduplicate ([] ++ ((exAlert "SSH_BRUTE_FORCE" (some "1.2.3.4"), 0)
        :: ([] ++ (exAlert "SSH_BRUTE_FORCE" (some "1.2.3.4"), 1) :: [])))
      = deduplicate []
        ++ exAlert "SSH_BRUTE_FORCE" (some "1.2.3.4") :: (dedupGo dedupWindow
            ((alertKey (exAlert "SSH_BRUTE_FORCE" (some "1.2.3.4")), 0)
              :: seenAfter dedupWindow [] []) []
          ++ dedupGo dedupWindow
            (seenAfter dedupWindow
              ((alertKey (exAlert "SSH_BRUTE_FORCE" (some "1.2.3.4")), 0)
                :: seenAfter dedupWindow [] []) []) [])
    ∧ lookupSeen (seenAfter dedupWindow
          [] ([] ++ [(exAlert "SSH_BRUTE_FORCE" (some "1.2.3.4"), 0)]))
        (alertKey (exAlert "SSH_BRUTE_FORCE" (some "1.2.3.4")))
        = some 0 :=
  dedup_first_wins [] [] [] (exAlert "SSH_BRUTE_FORCE" (some "1.2.3.4"))
    (exAlert "SSH_BRUTE_FORCE" (some "1.2.3.4")) 0 1 rfl
    (by intro p hp; cases hp) (by intro p hp; cases hp)
    (by norm_num) (by norm_num [dedupWindow, cfg.ALERT_DEDUP_WINDOW_MINUTES])

/- ==================== C5 ==================== -/

/-- C5 counterexample: `config.py` sets `ACCOUNT_IP_THRESHOLD = 3`, so
under the claim a user seen from 3 distinct IPs should be alerted; the
rule compares against a hardcoded `4` and emits nothing for `bob` seen
from exactly 3 distinct IPs. -/
theorem account_threshold_counterexample :
    cfg.ACCOUNT_IP_THRESHOLD = 3
    ∧ (distinctIps evsThreeIps).length = 3
    ∧ cfg.ACCOUNT_IP_THRESHOLD ≤ (distinctIps evsThreeIps).length
    ∧ analyze_user 0 "bob" evsThreeIps = [] :=
  ⟨rfl, by with_unfolding_all rfl,
    of_decide_eq_true (by with_unfolding_all rfl),
    by with_unfolding_all rfl⟩

/-- C5 (amended): the account-compromise rule emits an alert exactly
when the user's distinct-IP count reaches the hardcoded threshold 4
(the configured `ACCOUNT_IP_THRESHOLD`, value 3, is not consulted); the
alert has category LATERAL_MOVEMENT, threat type
POTENTIAL_ACCOUNT_COMPROMISE, the unique-IP count and list among its
features, risk 60 and confidence 70. -/
theorem account_compromise_rule (now : ℚ) (u : String) (events : List Event) :
    (analyze_user now u events ≠ [] ↔ 4 ≤ (distinctIps events).length)
    ∧ ∀ a ∈ analyze_user now u events,
        a.category = "LATERAL_MOVEMENT"
        ∧ a.threatType = "POTENTIAL_ACCOUNT_COMPROMISE"
        ∧ a.username = some u
        ∧ a.ipCount = some (distinctIps events).length
        ∧ a.uniqueIps = some (distinctIps events)
        ∧ a.riskScore = 60 ∧ a.confidence = 70 := by
  unfold analyze_user
  dsimp only
  by_cases h : 4 ≤ (distinctIps events).length
  · rw [if_pos h]
    refine ⟨by simp [h], ?_⟩
    intro a ha
    rw [List.mem_singleton] at ha
    subst ha
    exact ⟨rfl, rfl, rfl, rfl, rfl, rfl, rfl⟩
  · rw [if_neg h]
    exact ⟨by simp [h], by intro a ha; cases ha⟩

/-- C5 witness: the amended rule evaluated for `bob` seen from four
distinct IPs. -/
theorem account_compromise_rule_witness :
    (analyze_user 0 "bob" evsFourIps ≠ []
      ↔ 4 ≤ (distinctIps evsFourIps).length)
    ∧ ∀ a ∈ analyze_user 0 "bob" evsFourIps,
        a.category = "LATERAL_MOVEMENT"
        ∧ a.threatType = "POTENTIAL_ACCOUNT_COMPROMISE"
        ∧ a.username = some "bob"
        ∧ a.ipCount = some (distinctIps evsFourIps).length
        ∧ a.uniqueIps = some (distinctIps evsFourIps)
        ∧ a.riskScore = 60 ∧ a.confidence = 70 :=
  account_compromise_rule 0 "bob" evsFourIps

/- ==================== C9 ==================== -/

theorem analyze_user_alert_shape {now : ℚ} {u : String}
    {events : List Event} {a : Alert}
    (h : analyze_user now u events = [a]) :
    a.threatType = "POTENTIAL_ACCOUNT_COMPROMISE"
    ∧ a.sourceIp = none ∧ a.username = some u := by
  unfold analyze_user at h
  dsimp only at h
  by_cases hc : 4 ≤ (distinctIps events).length
  · rw [if_pos hc] at h
    rw [List.cons_eq_cons] at h
    obtain ⟨h1, -⟩ := h
    subst h1
    exact ⟨rfl, rfl, rfl⟩
  · rw [if_neg hc] at h
    cases h

/-- C9: the deduplicator keys alerts by `(THREAT_TYPE, SOURCE_IP)`
only; account-compromise alerts carry a username but no `SOURCE_IP`, so
the alerts of two distinct users collide on the same key, and when the
second is processed within the dedup window only the first survives. -/
theorem user_alert_dedup_collision
    (now1 now2 t1 t2 : ℚ) (u1 u2 : String) (evs1 evs2 : List Event)
    (a1 a2 : Alert) (hu : u1 ≠ u2)
    (h1 : analyze_user now1 u1 evs1 = [a1])
    (h2 : analyze_user now2 u2 evs2 = [a2])
    (hord : t1 ≤ t2) (hwin : t2 - t1 < dedupWindow) :
    alertKey a1 = alertKey a2
    ∧ deduplicate [(a1, t1), (a2, t2)] = [a1] := by
  obtain ⟨ht1, hs1, -⟩ := analyze_user_alert_shape h1
  obtain ⟨ht2, hs2, -⟩ := analyze_user_alert_shape h2
  have hkey : alertKey a1 = alertKey a2 := by
    unfold alertKey
    rw [ht1, ht2, hs1, hs2]
  refine ⟨hkey, ?_⟩
  have hwin' : t2 - t1 < (cfg.ALERT_DEDUP_WINDOW_MINUTES : ℚ) * 60 := hwin
  unfold deduplicate
  simp [dedupGo, lookupSeen, hkey, hwin']

/-- C9 witness: `bob` and `alice`, each seen from four distinct IPs,
yield one account-compromise alert apiece; deduplicated one second
apart, only `bob`'s survives. -/
theorem user_alert_dedup_collision_witness :
    alertKey alertBob = alertKey alertAlice
    ∧ deduplicate [(alertBob, 0), (alertAlice, 1)] = [alertBob] :=
  user_alert_dedup_collision 0 0 0 1 "bob" "alice" evsFourIps
    evsFourIpsAlice alertBob alertAlice (by decide)
    (by with_unfolding_all rfl) (by with_unfolding_all rfl)
    (by norm_num) (by norm_num [dedupWindow, cfg.ALERT_DEDUP_WINDOW_MINUTES])

/- ==================== C6 ==================== -/

/-- C6 counterexample: with the breach clock at 0.7, an IP group with 5
windowed failures (no intel hit, no geo risk, ML score 0) yields an
alert whose `RISK_SCORE` is 40, while the value the risk scorer
produces on exactly the inputs the rule feeds it is 30: the stored risk
is adjusted after scoring, i.e. not "the value produced by the
RiskScorer". -/
theorem scorer_provenance_counterexample :
    (analyze_ip ctxBreach "9.9.9.9" evsBrute10).map
        (fun o => o.alerts.map Alert.riskScore) = .ok [40]
    ∧ failedCount ctxBreach.now evsBrute10 = 5
    ∧ check_ip_reputation "9.9.9.9" = []
    ∧ cfg.GEO_RISK_COUNTRIES.contains (get_geoip_info "9.9.9.9").country
        = false
    ∧ detect_anomalies ctxBreach.baselines "9.9.9.9" evsBrute10 = .ok 0
    ∧ calculate_risk_score 5 0 false false false false 0 0 0 = 30
    ∧ (40 : ℤ) ≠ 30 :=
  ⟨by with_unfolding_all rfl, by with_unfolding_all rfl,
    by with_unfolding_all rfl, by with_unfolding_all rfl,
    by with_unfolding_all rfl, by with_unfolding_all rfl, by norm_num⟩

/-- C6 (amended): brute-force alerts carry the risk scorer's output
possibly raised by 10 (capped at 100) under breach pressure and the
confidence scorer's output unchanged; account-compromise alerts carry
the fixed constants risk 60 / confidence 70 with no scorer call; each
rule invocation emits at most one alert and stamps it with that rule's
single threat type. -/
theorem scores_from_scorers (ctx : Ctx) (ip : String) (events : List Event)
    (now : ℚ) (u : String) :
    (∀ out, analyze_ip ctx ip events = .ok out →
      out.alerts.length ≤ 1
      ∧ ∀ a ∈ out.alerts,
          a.threatType = "SSH_BRUTE_FORCE"
          ∧ ∃ ml n, mlStep ctx ip events = .ok (ml, n)
            ∧ a.riskScore = riskAdjust ctx.breachClock
                (calculate_risk_score (failedCount ctx.now events) 0
                  (cfg.GEO_RISK_COUNTRIES.contains
                    (get_geoip_info ip).country)
                  (!(check_ip_reputation ip).isEmpty) false false 0 0 ml)
            ∧ a.confidence = calculate_confidence_level 0.9
                (!(check_ip_reputation ip).isEmpty)
                (if ml > 0.5 then 0.6 else 1.0) 0)
    ∧ (∀ a ∈ analyze_user now u events,
        a.riskScore = 60 ∧ a.confidence = 70
        ∧ a.threatType = "POTENTIAL_ACCOUNT_COMPROMISE")
    ∧ (analyze_user now u events).length ≤ 1 := by
  refine ⟨?_, ?_, ?_⟩
  · intro out hout
    unfold analyze_ip at hout
    cases hms : mlStep ctx ip events with
    | error u' => rw [hms] at hout; cases hout
    | ok p =>
      obtain ⟨ml, n⟩ := p
      rw [hms] at hout
      dsimp only at hout
      by_cases hsup : suppressCond ctx.painBias (failedCount ctx.now events)
          (acceptedCount events) = true
      · rw [if_pos hsup] at hout
        injection hout with h
        subst h
        exact ⟨by simp, by intro a ha; cases ha⟩
      · rw [if_neg hsup] at hout
        by_cases hf : cfg.FAILED_LOGIN_THRESHOLD ≤ failedCount ctx.now events
        · rw [if_pos hf] at hout
          cases hfl : firstLastIngest events with
          | error u' => rw [hfl] at hout; cases hout
          | ok fl =>
            rw [hfl] at hout
            injection hout with h
            subst h
            refine ⟨by simp, ?_⟩
            intro a ha
            rw [List.mem_singleton] at ha
            subst ha
            exact ⟨rfl, ml, n, rfl, rfl, rfl⟩
        · rw [if_neg hf] at hout
          injection hout with h
          subst h
          exact ⟨by simp, by intro a ha; cases ha⟩
  · intro a ha
    unfold analyze_user at ha
    dsimp only at ha
    by_cases h : 4 ≤ (distinctIps events).length
    · rw [if_pos h] at ha
      rw [List.mem_singleton] at ha
      subst ha
      exact ⟨rfl, rfl, rfl⟩
    · rw [if_neg h] at ha
      cases ha
  · unfold analyze_user
    dsimp only
    by_cases h : 4 ≤ (distinctIps events).length
    · rw [if_pos h]
      simp
    · rw [if_neg h]
      simp

/-- C6 witness: the amended provenance statement evaluated at a
concrete context and group. -/
theorem scores_from_scorers_witness :
    (∀ out, analyze_ip ctxPlain "1.2.3.4" evsBrute = .ok out →
      out.alerts.length ≤ 1
      ∧ ∀ a ∈ out.alerts,
          a.threatType = "SSH_BRUTE_FORCE"
          ∧ ∃ ml n, mlStep ctxPlain "1.2.3.4" evsBrute = .ok (ml, n)
            ∧ a.riskScore = riskAdjust ctxPlain.breachClock
                (calculate_risk_score (failedCount ctxPlain.now evsBrute) 0
                  (cfg.GEO_RISK_COUNTRIES.contains
                    (get_geoip_info "1.2.3.4").country)
                  (!(check_ip_reputation "1.2.3.4").isEmpty)
                  false false 0 0 ml)
            ∧ a.confidence = calculate_confidence_level 0.9
                (!(check_ip_reputation "1.2.3.4").isEmpty)
                (if ml > 0.5 then 0.6 else 1.0) 0)
    ∧ (∀ a ∈ analyze_user 0 "bob" evsBrute,
        a.riskScore = 60 ∧ a.confidence = 70
        ∧ a.threatType = "POTENTIAL_ACCOUNT_COMPROMISE")
    ∧ (analyze_user 0 "bob" evsBrute).length ≤ 1 :=
  scores_from_scorers ctxPlain "1.2.3.4" evsBrute 0 "bob"

/- ==================== C7 ==================== -/

/-- C7 counterexample: for three events whose list order `[10, 0, 11]`
is not timestamp order, the coded burst indicator fires (in-order
average gap 1/2 < 5) and the score is 0.3, while the spec's
sorted-timestamps reading gives average gap 11/2 and total 0: the
scorer does not sort. -/
theorem burst_order_counterexample :
    detect_anomalies bOne "1.2.3.4" evsOutOfOrder = .ok (3/10)
    ∧ detectAnomaliesSortedSpec bOne "1.2.3.4" evsOutOfOrder = 0
    ∧ detect_anomalies bOne "1.2.3.4" evsOutOfOrder
        ≠ .ok (detectAnomaliesSortedSpec bOne "1.2.3.4" evsOutOfOrder) := by
  refine ⟨by with_unfolding_all rfl, by with_unfolding_all rfl, ?_⟩
  intro h
  rw [show detectAnomaliesSortedSpec bOne "1.2.3.4" evsOutOfOrder = 0 from
    by with_unfolding_all rfl] at h
  rw [show detect_anomalies bOne "1.2.3.4" evsOutOfOrder = .ok (3/10) from
    by with_unfolding_all rfl] at h
  injection h with h'
  norm_num at h'

/-- C7 (amended): on well-timed input the anomaly score is the sum of
the three indicators capped at 1, where the burst-timing indicator
contributes exactly +0.3 when the entity has at least 3 events and the
average gap across consecutive timestamps *in list order* (the scorer
does not sort) is below 5 seconds, and 0 otherwise. -/
theorem burst_timing_rule (b : Baselines) (ip : String) (events : List Event)
    (hw : ∀ e ∈ events, timeOk e = true) :
    detect_anomalies b ip events = .ok (anomalyTotal b events)
    ∧ (burstContrib events = 0.3
        ↔ 3 ≤ events.length
          ∧ 2 ≤ (events.filterMap
              (fun e => e.ingestTime.bind fromisoformat)).length
          ∧ avgGap (events.filterMap
              (fun e => e.ingestTime.bind fromisoformat)) < 5)
    ∧ (¬ (3 ≤ events.length
          ∧ 2 ≤ (events.filterMap
              (fun e => e.ingestTime.bind fromisoformat)).length
          ∧ avgGap (events.filterMap
              (fun e => e.ingestTime.bind fromisoformat)) < 5)
        → burstContrib events = 0) := by
  refine ⟨detect_eval hw, ?_, ?_⟩
  · by_cases hc : 3 ≤ events.length
        ∧ 2 ≤ (events.filterMap
            (fun e => e.ingestTime.bind fromisoformat)).length
        ∧ avgGap (events.filterMap
            (fun e => e.ingestTime.bind fromisoformat)) < 5
    · simp only [burstContrib, if_pos hc]
      simp [hc]
    · simp only [burstContrib, if_neg hc]
      simp only [hc, iff_false]
      norm_num
  · intro hc
    simp only [burstContrib, if_neg hc]

/-- C7 witness: the amended scorer statement evaluated on the
out-of-order example. -/
theorem burst_timing_rule_witness :
    detect_anomalies bOne "1.2.3.4" evsOutOfOrder
        = .ok (anomalyTotal bOne evsOutOfOrder)
    ∧ (burstContrib evsOutOfOrder = 0.3
        ↔ 3 ≤ evsOutOfOrder.length
          ∧ 2 ≤ (evsOutOfOrder.filterMap
              (fun e => e.ingestTime.bind fromisoformat)).length
          ∧ avgGap (evsOutOfOrder.filterMap
              (fun e => e.ingestTime.bind fromisoformat)) < 5)
    ∧ (¬ (3 ≤ evsOutOfOrder.length
          ∧ 2 ≤ (evsOutOfOrder.filterMap
              (fun e => e.ingestTime.bind fromisoformat)).length
          ∧ avgGap (evsOutOfOrder.filterMap
              (fun e => e.ingestTime.bind fromisoformat)) < 5)
        → burstContrib evsOutOfOrder = 0) :=
  burst_timing_rule bOne "1.2.3.4" evsOutOfOrder
    (of_decide_eq_true (by with_unfolding_all rfl))

/- ==================== C8 ==================== -/

/-- C8 counterexample: the caller-visible result of `analyze_file` on a
missing input file is the same `.ok []` value as the empty-result state
of a run over input that parses to no events — the failure is not
distinct to the caller (it is only displayed on the UI). -/
theorem missing_file_counterexample :
    analyze_file 1000 0 none false [exFailed 1]
      = analyze_file 1000 0 none true []
    ∧ analyze_file 1000 0 none false [exFailed 1] = .ok [] :=
  ⟨by with_unfolding_all rfl, by with_unfolding_all rfl⟩

/-- C8 (amended): a missing input file makes `analyze_file` display a
UI error and return `.ok []` without running the pipeline (no partial
results), which is the very same value the caller receives from a run
whose input parses to no events; the two outcomes are not
distinguishable in the returned value. -/
theorem missing_file_empty_result (now painBias : ℚ) (bc : Option ℚ)
    (events : List Event) :
    analyze_file now painBias bc false events = .ok []
    ∧ analyze_file now painBias bc true [] = .ok [] := by
  constructor
  · rfl
  · cases bc with
    | none => rfl
    | some b =>
      simp [analyze_file, correlate, correlateIps, correlateUsers,
        truthyVals, firstUniq, deduplicate, dedupGo, apply_time_pressure,
        Except.map]

/- ==================== C10 ==================== -/

/-- C10: `detect_anomalies` never raises when every event's
`INGEST_TIME`, if present, parses; without that precondition it raises
on an entity group of at least 3 events holding a malformed stamp — and
unlike it, the brute-force window filter of `_analyze_ip` skips a
malformed-stamp event and keeps the parseable ones. -/
theorem timestamp_error_handling :
    (∀ (b : Baselines) (ip : String) (events : List Event),
        (∀ e ∈ events, timeOk e = true)
        → ∃ q, detect_anomalies b ip events = .ok q)
    ∧ detect_anomalies bOne "1.1.1.1" evsMalformed = .error ()
    ∧ recentEvents 0 evsMixed = [exStamp (-10)] :=
  ⟨fun b ip events hw => ⟨_, detect_eval hw⟩,
    by with_unfolding_all rfl, by with_unfolding_all rfl⟩

/-- C10 witness: the no-raise statement evaluated on a concrete
well-timed group. -/
theorem timestamp_error_handling_witness :
    ∃ q, detect_anomalies bOne "1.1.1.1" evsOutOfOrder = .ok q :=
  timestamp_error_handling.1 bOne "1.1.1.1" evsOutOfOrder
    (of_decide_eq_true (by with_unfolding_all rfl))

end Soc
